import Mathlib

/-!
Shallow embedding of `axis.py` (ChomusukeBot/Axis), a small Sanic web service
that links a Discord user ID to a GitHub login via the OAuth2 authorization
code flow and stores the mapping in a MongoDB `users` collection.

The three request handlers (`home`, `github`, `github_callback`) are embedded
as pure functions.  The outbound HTTP responses of GitHub (the token-exchange
body and the profile response) are inputs of `github_callback`, and the
MongoDB collection is threaded through explicitly as a list of documents.
Paths of the Python code that raise an uncaught exception (KeyError,
ValueError, IndexError) are modelled with `Except.error`.
-/

set_option autoImplicit false
set_option linter.unusedVariables false

namespace Axis

/-! ## Python library functions used by the source -/

/-- Replace every plus sign by a space, as `urllib.parse.parse_qsl` does to
names and values before percent-decoding. -/
def plusToSpace (cs : List Char) : List Char :=
  cs.map (fun c => if c == '+' then ' ' else c)

/-- `str.split(sep)` for a one-character separator: `"a&b"` gives the two
pieces `a` and `b`, and an empty string gives one empty piece. -/
def splitOnCh (sep : Char) : List Char → List (List Char)
  | [] => [[]]
  | c :: rest =>
    let r := splitOnCh sep rest
    if c == sep then [] :: r
    else
      match r with
      | [] => [[c]]
      | p :: ps => (c :: p) :: ps

/-- `str.split(sep, 1)` for a one-character separator: break at the first
occurrence, or `none` when the separator does not occur. -/
def splitFirst (sep : Char) : List Char → Option (List Char × List Char)
  | [] => none
  | c :: rest =>
    if c == sep then some ([], rest)
    else (splitFirst sep rest).map (fun p => (c :: p.1, p.2))

/-- Value of a hexadecimal digit, as recognised by percent-decoding. -/
def hexVal (c : Char) : Option Nat :=
  if '0' ≤ c ∧ c ≤ '9' then some (c.toNat - 48)
  else if 'a' ≤ c ∧ c ≤ 'f' then some (c.toNat - 87)
  else if 'A' ≤ c ∧ c ≤ 'F' then some (c.toNat - 55)
  else none

/-- Percent-decoding of `urllib.parse.unquote`, modelled byte by byte: a
valid `%XX` sequence with `XX < 0x80` becomes that ASCII character, a byte
`0x80` or above becomes U+FFFD (as Python produces for a byte that is not
valid UTF-8), and an invalid escape is kept verbatim.  This agrees with
Python on every string whose escapes are ASCII, which covers all inputs in
this development; multi-byte UTF-8 escape runs are not modelled. -/
def pctDecodeGo : Nat → List Char → List Char
  | _, [] => []
  | 0, cs => cs
  | fuel + 1, c :: rest =>
    if c == '%' then
      match rest with
      | c1 :: c2 :: rest2 =>
        match hexVal c1, hexVal c2 with
        | some h, some l =>
          let b := 16 * h + l
          (if b < 128 then Char.ofNat b else Char.ofNat 0xFFFD) ::
            pctDecodeGo fuel rest2
        | _, _ => '%' :: pctDecodeGo fuel rest
      | _ => c :: pctDecodeGo fuel rest
    else c :: pctDecodeGo fuel rest

/-- Percent-decoding of the whole list; every step of `pctDecodeGo` consumes
at least one character, so a fuel of the list length never runs out. -/
def pctDecodeList (cs : List Char) : List Char :=
  pctDecodeGo cs.length cs

/-- Split a query string into raw `name=value` pieces: `parse_qsl` splits on
both ampersand and semicolon in the Python versions this code ran on. -/
def splitPairs (qs : String) : List (List Char) :=
  ((splitOnCh '&' qs.data).map (splitOnCh ';')).flatten

/-- Process one raw piece as `parse_qsl` does with its default arguments:
an empty piece is skipped, a piece without an equals sign is skipped
(`keep_blank_values=False`, so is a piece with an empty value), and
otherwise name and value (split at the first equals sign) have plus signs
turned into spaces and are percent-decoded. -/
def parsePiece (p : List Char) : Option (String × String) :=
  match splitFirst '=' p with
  | none => none
  | some (name, value) =>
    if value = [] then none
    else some (String.mk (pctDecodeList (plusToSpace name)),
               String.mk (pctDecodeList (plusToSpace value)))

/-- `urllib.parse.parse_qs`, kept as the ordered list of decoded pairs.  The
dictionary view of the Python result is recovered by `qsHasKey` (membership
test `k in params`) and `qsFirst` (`params[k][0]`). -/
def parse_qs (qs : String) : List (String × String) :=
  (splitPairs qs).filterMap parsePiece

/-- `k in params` on the result of `parse_qs`. -/
def qsHasKey (ps : List (String × String)) (k : String) : Bool :=
  ps.any (fun p => p.1 == k)

/-- `params[k][0]` on the result of `parse_qs`: the first value listed under
`k`, or `none` when the lookup would raise `KeyError`. -/
def qsFirst (ps : List (String × String)) (k : String) : Option String :=
  (ps.find? (fun p => p.1 == k)).map (fun p => p.2)

/-- A Unicode decimal digit (category Nd), the digits accepted by `int`.
The full Unicode table is restricted here to the characters exercised in
this development: the ASCII digits and the Arabic-Indic digits. -/
def charIsDecimalPy (c : Char) : Bool :=
  ('0' ≤ c && c ≤ '9') || (0x660 ≤ c.toNat && c.toNat ≤ 0x669)

/-- A character with the Unicode `Numeric_Type` property, the test used by
`str.isnumeric`: every decimal digit, and (same finite restriction of the
Unicode table as above) the Latin-1 superscripts and vulgar fractions,
which carry the property without being decimal digits. -/
def charIsNumericPy (c : Char) : Bool :=
  charIsDecimalPy c || c.toNat == 0xB9 || c.toNat == 0xB2 || c.toNat == 0xB3 ||
    c.toNat == 0xBC || c.toNat == 0xBD || c.toNat == 0xBE

/-- `str.isnumeric`: true exactly for a nonempty string all of whose
characters are numeric. -/
def pyIsNumeric (s : String) : Bool :=
  !s.data.isEmpty && s.data.all charIsNumericPy

/-- Digit value of a decimal digit in the restricted table. -/
def pyDigitVal (c : Char) : Nat :=
  if '0' ≤ c && c ≤ '9' then c.toNat - 48 else c.toNat - 0x660

/-- `int(s)` as applied on line 127 of the source, where `s` has already
passed `isnumeric`: it succeeds exactly when every character is a decimal
digit (category Nd) and returns the base-10 value; on a numeric but
non-decimal string (such as a vulgar fraction) `int` raises `ValueError`,
modelled by `none`.  Sign characters, whitespace and underscores, which
plain `int` also accepts, never pass `isnumeric` and so are not modelled. -/
def pyIntOfNumeric (s : String) : Option Int :=
  if !s.data.isEmpty && s.data.all charIsDecimalPy then
    some (Int.ofNat (s.data.foldl (fun a c => 10 * a + pyDigitVal c) 0))
  else none

/-! ## The MongoDB `users` collection -/

/-- A document of the `users` collection: the `_id` key (the Discord ID, a
Python int) and the remaining fields as an association list. -/
structure Doc where
  id : Int
  fields : List (String × String)
deriving Repr, DecidableEq

/-- The collection, in natural order. -/
abbrev DB := List Doc

/-- Field lookup inside a document (and also JSON-object lookup for the
profile response). -/
def getField (fs : List (String × String)) (k : String) : Option String :=
  (fs.find? (fun p => p.1 == k)).map (fun p => p.2)

/-- `$set` of one field: overwrite the value under `k` if present, append
the pair otherwise. -/
def setField : List (String × String) → String → String → List (String × String)
  | [], k, v => [(k, v)]
  | (k0, v0) :: rest, k, v =>
    if k0 == k then (k0, v) :: rest else (k0, v0) :: setField rest k v

/-- `COLLECTION.find_one({"_id": n})`: the first document whose `_id` is `n`. -/
def find_one (db : DB) (n : Int) : Option Doc :=
  db.find? (fun d => d.id == n)

/-- `COLLECTION.update_one({"_id": n}, {"$set": {"github": login}})`: update
the first matching document, leaving every other document untouched. -/
def update_one : DB → Int → String → DB
  | [], _, _ => []
  | d :: rest, n, login =>
    if d.id == n then { d with fields := setField d.fields "github" login } :: rest
    else d :: update_one rest n login

/-- Lines 129-138 of the source: look the ID up, update the found document
or insert `{_id: n, github: login}`. -/
def upsertUser (db : DB) (n : Int) (login : String) : DB :=
  match find_one db n with
  | some _ => update_one db n login
  | none => db ++ [{ id := n, fields := [("github", login)] }]

/-- Number of documents stored under a given `_id`. -/
def countId (db : DB) (n : Int) : Nat :=
  (db.filter (fun d => d.id == n)).length

/-- The Link-Record invariant of the spec: at most one document per ID. -/
def atMostOnePerId (db : DB) : Prop :=
  ∀ n : Int, countId db n ≤ 1

/-! ## HTTP requests and responses -/

/-- The parts of a Sanic request the handlers read: the request URL, the
parsed query arguments (a dict of value lists) and the cookies. -/
structure Request where
  url : String
  args : List (String × List String)
  cookies : List (String × String)
deriving Repr, DecidableEq

/-- `request.args[k]`, or `none` when `k not in request.args`. -/
def argsGet (args : List (String × List String)) (k : String) : Option (List String) :=
  (args.find? (fun p => p.1 == k)).map (fun p => p.2)

/-- `request.cookies[k]`, or `none` when `k not in request.cookies`. -/
def cookiesGet (cs : List (String × String)) (k : String) : Option String :=
  (cs.find? (fun p => p.1 == k)).map (fun p => p.2)

/-- The observable parts of a Sanic response: status, text body, the
`Location` header of a redirect, and the cookies set on it. -/
structure Response where
  status : Nat
  body : String
  location : Option String
  setCookies : List (String × String)
deriving Repr, DecidableEq

/-- `sanic.response.text(body, status=status)`. -/
def textResp (body : String) (status : Nat) : Response :=
  { status := status, body := body, location := none, setCookies := [] }

/-- `sanic.response.redirect(to, status=status)`. -/
def redirectResp (target : String) (status : Nat) : Response :=
  { status := status, body := "", location := some target, setCookies := [] }

/-- The environment variables the handlers read: `GITHUB_CLIENT` and
`GITHUB_SECRET`, each possibly absent. -/
structure Env where
  github_client : Option String
  github_secret : Option String
deriving Repr, DecidableEq

/-- The `AUTH_GITHUB` format string applied to client and callback. -/
def AUTH_GITHUB (client callback : String) : String :=
  "https://github.com/login/oauth/authorize?client_id=" ++ client ++
    "&redirect_uri=" ++ callback

/-- The `CODE_GITHUB` format string applied to client, secret and code. -/
def CODE_GITHUB (client secret code : String) : String :=
  "https://github.com/login/oauth/access_token?client_id=" ++ client ++
    "&client_secret=" ++ secret ++ "&code=" ++ code

/-- The GitHub profile endpoint. -/
def USER_GITHUB : String :=
  "https://api.github.com/user"

/-- Break a character list at the first occurrence of `://`. -/
def breakAtScheme : List Char → Option (List Char × List Char)
  | [] => none
  | c :: rest =>
    if c == ':' && rest.take 2 == ['/', '/'] then some ([], rest.drop 2)
    else (breakAtScheme rest).map (fun p => (c :: p.1, p.2))

/-- Modelled from the spec: `tools.parse_url` is imported by the source but
its file is not part of src/.  The spec only says the redirect target is
`authorize?client_id=<id>&redirect_uri=<callback_url>` with the callback
built from the request URL, so `parse_url` is modelled as returning the
scheme-and-authority prefix of the URL (everything before the first slash
after `://`, or the whole URL when no scheme separator occurs). -/
def parse_url (url : String) : String :=
  match breakAtScheme url.data with
  | some (scheme, rest) =>
    String.mk (scheme ++ [':', '/', '/'] ++ rest.takeWhile (fun c => !(c == '/')))
  | none => url

/-! ## The three handlers -/

/-- The `/` handler (lines 36-42): redirect to the organization page. -/
def home (request : Request) : Response :=
  redirectResp "https://github.com/ChomusukeBot" 302

/-- The `/github` handler (lines 45-67).  `Except.error` models an uncaught
Python exception (`request.args["id"][0]` on an empty value list, which a
real Sanic request never produces). -/
def github (env : Env) (request : Request) : Except String Response :=
  match env.github_client, env.github_secret with
  | some client, some _secret =>
    match argsGet request.args "id" with
    | none => .ok (textResp "The Discord ID was not specified" 400)
    | some ids =>
      match ids.head? with
      | none => .error "IndexError: list index out of range"
      | some discordId =>
        let callback := parse_url request.url ++ "/github/callback"
        let redirect := AUTH_GITHUB client callback
        .ok { redirectResp redirect 301 with setCookies := [("id", discordId)] }
  | _, _ => .ok (textResp "GitHub is not supported at this time." 503)

/-- The `/github/callback` handler (lines 70-142).  The token-exchange
response body (`exchangeBody`) and the profile response (`profileStatus`,
`profileJson`) are the data GitHub answers with; the collection `db` is
threaded through.  `Except.error` models an uncaught Python exception:
`KeyError` on a missing `error_description`, `access_token` or `login` key,
`ValueError` when `int` rejects a cookie that passed `isnumeric`, and
`IndexError` on an empty value list. -/
def github_callback (env : Env) (request : Request) (exchangeBody : String)
    (profileStatus : Nat) (profileJson : List (String × String)) (db : DB) :
    Except String (Response × DB) :=
  match env.github_client, env.github_secret with
  | some _client, some _secret =>
    match cookiesGet request.cookies "id" with
    | none => .ok (textResp "No Discord ID present on cookies." 400, db)
    | some cookieId =>
      if !pyIsNumeric cookieId then
        .ok (textResp "The Discord ID is not numeric." 400, db)
      else
        match argsGet request.args "code" with
        | none => .ok (textResp "There is no GitHub code." 400, db)
        | some codes =>
          match codes.head? with
          | none => .error "IndexError: list index out of range"
          | some _code =>
            let params := parse_qs exchangeBody
            if qsHasKey params "error" then
              match qsFirst params "error_description" with
              | none => .error "KeyError: error_description"
              | some desc => .ok (textResp desc 400, db)
            else
              match qsFirst params "access_token" with
              | none => .error "KeyError: access_token"
              | some _token =>
                if profileStatus != 200 then
                  .ok (textResp "An error has ocurred while fetching your data." profileStatus, db)
                else
                  match pyIntOfNumeric cookieId with
                  | none => .error "ValueError: invalid literal for int with base 10"
                  | some n =>
                    match getField profileJson "login" with
                    | none => .error "KeyError: login"
                    | some login =>
                      .ok (textResp ("Done! The GitHub account " ++ login ++
                            " is now linked with Discord.") 200,
                          upsertUser db n login)
  | _, _ => .ok (textResp "GitHub is not supported at this time." 503, db)

/-- A concrete stored record carrying an extra field besides `github`. -/
def sampleDoc : Doc :=
  { id := 5, fields := [("github", "old"), ("color", "blue")] }

/-! ## Lemmas about the collection operations -/

theorem getField_cons_pos (k0 v0 : String) (rest : List (String × String))
    (k : String) (h : k0 = k) : getField ((k0, v0) :: rest) k = some v0 := by
  subst h
  simp [getField, List.find?_cons]

theorem getField_cons_neg (k0 v0 : String) (rest : List (String × String))
    (k : String) (h : k0 ≠ k) : getField ((k0, v0) :: rest) k = getField rest k := by
  simp [getField, List.find?_cons, beq_eq_false_iff_ne.mpr h]

theorem find_one_cons_pos (d : Doc) (rest : DB) (n : Int) (h : d.id = n) :
    find_one (d :: rest) n = some d := by
  simp [find_one, List.find?_cons, h]

theorem find_one_cons_neg (d : Doc) (rest : DB) (n : Int) (h : d.id ≠ n) :
    find_one (d :: rest) n = find_one rest n := by
  simp [find_one, List.find?_cons, beq_eq_false_iff_ne.mpr h]

theorem countId_cons_pos (d : Doc) (rest : DB) (m : Int) (h : d.id = m) :
    countId (d :: rest) m = countId rest m + 1 := by
  simp [countId, List.filter_cons, h]

theorem countId_cons_neg (d : Doc) (rest : DB) (m : Int) (h : d.id ≠ m) :
    countId (d :: rest) m = countId rest m := by
  simp [countId, List.filter_cons, beq_eq_false_iff_ne.mpr h]

theorem getField_setField_self (fs : List (String × String)) (k v : String) :
    getField (setField fs k v) k = some v := by
  induction fs with
  | nil => simp [setField, getField, List.find?_cons]
  | cons p rest ih =>
    obtain ⟨k0, v0⟩ := p
    by_cases hk : k0 = k
    · subst hk
      simp only [setField, beq_self_eq_true, if_pos]
      exact getField_cons_pos k0 v rest k0 rfl
    · rw [setField, if_neg (by simpa using hk)]
      rw [getField_cons_neg k0 v0 _ k hk]
      exact ih

theorem getField_setField_other (fs : List (String × String)) (k v k' : String)
    (h : k' ≠ k) : getField (setField fs k v) k' = getField fs k' := by
  induction fs with
  | nil =>
    rw [setField, getField_cons_neg k v [] k' (fun hk => h hk.symm)]
  | cons p rest ih =>
    obtain ⟨k0, v0⟩ := p
    by_cases hk : k0 = k
    · subst hk
      rw [setField, if_pos (beq_self_eq_true k0)]
      rw [getField_cons_neg k0 v rest k' (fun hk => h hk.symm),
          getField_cons_neg k0 v0 rest k' (fun hk => h hk.symm)]
    · rw [setField, if_neg (by simpa using hk)]
      by_cases hk' : k0 = k'
      · rw [getField_cons_pos k0 v0 _ k' hk', getField_cons_pos k0 v0 rest k' hk']
      · rw [getField_cons_neg k0 v0 _ k' hk', getField_cons_neg k0 v0 rest k' hk']
        exact ih

theorem update_one_length (db : DB) (n : Int) (login : String) :
    (update_one db n login).length = db.length := by
  induction db with
  | nil => rfl
  | cons d rest ih =>
    by_cases hd : d.id = n
    · simp [update_one, hd]
    · rw [update_one, if_neg (by simpa using hd)]
      simp [ih]

theorem find_one_update_one (db : DB) (n : Int) (login : String) (d : Doc)
    (h : find_one db n = some d) :
    find_one (update_one db n login) n =
      some { d with fields := setField d.fields "github" login } := by
  induction db with
  | nil => simp [find_one] at h
  | cons d0 rest ih =>
    by_cases h0 : d0.id = n
    · rw [find_one_cons_pos d0 rest n h0] at h
      obtain rfl : d0 = d := by simpa using h
      rw [update_one, if_pos (by simpa using h0)]
      exact find_one_cons_pos _ rest n h0
    · rw [find_one_cons_neg d0 rest n h0] at h
      rw [update_one, if_neg (by simpa using h0)]
      rw [find_one_cons_neg d0 _ n h0]
      exact ih h

theorem filter_update_one_other (db : DB) (n : Int) (login : String) (m : Int)
    (h : m ≠ n) :
    (update_one db n login).filter (fun x => x.id == m) =
      db.filter (fun x => x.id == m) := by
  induction db with
  | nil => rfl
  | cons d0 rest ih =>
    by_cases h0 : d0.id = n
    · have hm : (d0.id == m) = false := beq_eq_false_iff_ne.mpr (by
        rw [h0]; exact fun hb => h hb.symm)
      rw [update_one, if_pos (by simpa using h0)]
      simp [List.filter_cons, hm]
    · rw [update_one, if_neg (by simpa using h0)]
      simp [List.filter_cons, ih]

theorem countId_update_one (db : DB) (n : Int) (login : String) (m : Int) :
    countId (update_one db n login) m = countId db m := by
  induction db with
  | nil => rfl
  | cons d0 rest ih =>
    by_cases h0 : d0.id = n
    · rw [update_one, if_pos (by simpa using h0)]
      by_cases hm : d0.id = m
      · rw [countId_cons_pos { d0 with fields := setField d0.fields "github" login }
              rest m hm, countId_cons_pos d0 rest m hm]
      · rw [countId_cons_neg { d0 with fields := setField d0.fields "github" login }
              rest m hm, countId_cons_neg d0 rest m hm]
    · rw [update_one, if_neg (by simpa using h0)]
      by_cases hm : d0.id = m
      · rw [countId_cons_pos _ _ m hm, countId_cons_pos d0 rest m hm, ih]
      · rw [countId_cons_neg _ _ m hm, countId_cons_neg d0 rest m hm, ih]

theorem countId_append_single (db : DB) (n : Int) (fs : List (String × String))
    (m : Int) :
    countId (db ++ [{ id := n, fields := fs }]) m =
      countId db m + (if n = m then 1 else 0) := by
  by_cases h : n = m <;>
    simp [countId, List.filter_append, List.filter_cons, h]

theorem find_one_none_countId (db : DB) (n : Int) (h : find_one db n = none) :
    countId db n = 0 := by
  rw [find_one, List.find?_eq_none] at h
  simp only [countId, List.length_eq_zero, List.filter_eq_nil_iff]
  exact h

theorem upsertUser_insert (db : DB) (n : Int) (login : String)
    (h : find_one db n = none) :
    upsertUser db n login = db ++ [{ id := n, fields := [("github", login)] }] := by
  rw [upsertUser, h]

theorem upsertUser_update (db : DB) (n : Int) (login : String) (d : Doc)
    (h : find_one db n = some d) :
    upsertUser db n login = update_one db n login := by
  rw [upsertUser, h]

theorem upsertUser_atMostOne (db : DB) (n : Int) (login : String)
    (h : atMostOnePerId db) : atMostOnePerId (upsertUser db n login) := by
  rw [upsertUser]
  cases hf : find_one db n with
  | some d =>
    intro m
    rw [countId_update_one]
    exact h m
  | none =>
    intro m
    rw [countId_append_single]
    by_cases hm : n = m
    · subst hm
      have := find_one_none_countId db n hf
      simp [this]
    · simp [hm]
      exact h m

/-! ## The claims -/

/-- Claim C8: every request to the root endpoint returns a 302 redirect to
the fixed organization URL, for all configurations (the handler does not
read the environment) and all request contents. -/
theorem home_always_redirects_to_org (env : Env) (request : Request) :
    (home request).status = 302 ∧
    (home request).location = some "https://github.com/ChomusukeBot" :=
  ⟨rfl, rfl⟩

/-- Claim C7: with credentials configured and an `id` query parameter
present, `/github` returns a 301 redirect to the provider authorize URL
`authorize?client_id=<id>&redirect_uri=<callback_url>` and sets an `id`
cookie carrying the supplied platform user ID; it returns 503 when
unconfigured and 400 when `id` is missing. -/
theorem github_initiate_behavior (env : Env) (request : Request) :
    ((env.github_client = none ∨ env.github_secret = none) →
      github env request = .ok (textResp "GitHub is not supported at this time." 503)) ∧
    (∀ client secret, env.github_client = some client →
      env.github_secret = some secret →
      (argsGet request.args "id" = none →
        github env request = .ok (textResp "The Discord ID was not specified" 400)) ∧
      (∀ v rest, argsGet request.args "id" = some (v :: rest) →
        github env request = .ok
          { status := 301, body := "",
            location := some (AUTH_GITHUB client
              (parse_url request.url ++ "/github/callback")),
            setCookies := [("id", v)] })) := by
  obtain ⟨gc, gs⟩ := env
  refine ⟨fun h => ?_, fun client secret hc hs => ?_⟩
  · cases gc <;> cases gs <;> simp_all [github]
  · simp only at hc hs
    subst hc
    subst hs
    refine ⟨fun hid => ?_, fun v rest hid => ?_⟩
    · simp [github, hid]
    · simp [github, hid, redirectResp]

/-- Witness for C7 at a concrete configured request carrying `id=123`. -/
theorem github_initiate_behavior_witness :
    github { github_client := some "c", github_secret := some "s" }
        { url := "http://ax.example/github?id=123", args := [("id", ["123"])],
          cookies := [] } = .ok
      { status := 301, body := "",
        location := some (AUTH_GITHUB "c"
          (parse_url "http://ax.example/github?id=123" ++ "/github/callback")),
        setCookies := [("id", "123")] } :=
  ((github_initiate_behavior
      { github_client := some "c", github_secret := some "s" }
      { url := "http://ax.example/github?id=123", args := [("id", ["123"])],
        cookies := [] }).2 "c" "s" rfl rfl).2 "123" [] rfl

/-- Claim C2: the callback checks its four preconditions in the fixed order
(credentials configured, `id` cookie present, `id` cookie numeric, `code`
query parameter present), each short-circuiting with its distinct failure:
503 for the first and 400 with distinct bodies for the other three; and
whenever credentials are unconfigured, both `/github` and `/github/callback`
answer 503 regardless of all other parameters and cookies. -/
theorem callback_precondition_order (env : Env) (request : Request)
    (exchangeBody : String) (profileStatus : Nat)
    (profileJson : List (String × String)) (db : DB) :
    ((env.github_client = none ∨ env.github_secret = none) →
      github env request = .ok (textResp "GitHub is not supported at this time." 503) ∧
      github_callback env request exchangeBody profileStatus profileJson db =
        .ok (textResp "GitHub is not supported at this time." 503, db)) ∧
    (∀ client secret, env.github_client = some client →
      env.github_secret = some secret →
      (cookiesGet request.cookies "id" = none →
        github_callback env request exchangeBody profileStatus profileJson db =
          .ok (textResp "No Discord ID present on cookies." 400, db)) ∧
      (∀ cid, cookiesGet request.cookies "id" = some cid →
        pyIsNumeric cid = false →
        github_callback env request exchangeBody profileStatus profileJson db =
          .ok (textResp "The Discord ID is not numeric." 400, db)) ∧
      (∀ cid, cookiesGet request.cookies "id" = some cid →
        pyIsNumeric cid = true → argsGet request.args "code" = none →
        github_callback env request exchangeBody profileStatus profileJson db =
          .ok (textResp "There is no GitHub code." 400, db))) := by
  obtain ⟨gc, gs⟩ := env
  refine ⟨fun h => ?_, fun client secret hc hs => ?_⟩
  · cases gc <;> cases gs <;> simp_all [github, github_callback]
  · simp only at hc hs
    subst hc
    subst hs
    refine ⟨fun hid => ?_, fun cid hid hnum => ?_, fun cid hid hnum hcode => ?_⟩
    · simp [github_callback, hid]
    · simp [github_callback, hid, hnum]
    · simp [github_callback, hid, hnum, hcode]

/-- Witness for C2: an unconfigured environment answers 503 on both
endpoints for a request that would otherwise succeed. -/
theorem callback_precondition_order_witness :
    github { github_client := none, github_secret := some "s" }
        { url := "u", args := [("id", ["123"]), ("code", ["x"])],
          cookies := [("id", "123")] } =
      .ok (textResp "GitHub is not supported at this time." 503) ∧
    github_callback { github_client := none, github_secret := some "s" }
        { url := "u", args := [("id", ["123"]), ("code", ["x"])],
          cookies := [("id", "123")] } "access_token=t" 200 [("login", "octocat")]
        [] =
      .ok (textResp "GitHub is not supported at this time." 503, []) :=
  (callback_precondition_order
    { github_client := none, github_secret := some "s" }
    { url := "u", args := [("id", ["123"]), ("code", ["x"])],
      cookies := [("id", "123")] } "access_token=t" 200 [("login", "octocat")]
    []).1 (Or.inl rfl)

/-- Claim C4: a callback request whose `id` cookie is present but
non-numeric is answered 400 and the collection is returned unchanged. -/
theorem callback_nonnumeric_cookie (env : Env) (request : Request)
    (exchangeBody : String) (profileStatus : Nat)
    (profileJson : List (String × String)) (db : DB) (client secret cid : String)
    (hc : env.github_client = some client) (hs : env.github_secret = some secret)
    (hid : cookiesGet request.cookies "id" = some cid)
    (hnum : pyIsNumeric cid = false) :
    github_callback env request exchangeBody profileStatus profileJson db =
      .ok (textResp "The Discord ID is not numeric." 400, db) := by
  obtain ⟨gc, gs⟩ := env
  simp only at hc hs
  subst hc
  subst hs
  simp [github_callback, hid, hnum]

/-- Witness for C4 at the example cookie value from the spec. -/
theorem callback_nonnumeric_cookie_witness :
    github_callback { github_client := some "c", github_secret := some "s" }
        { url := "u", args := [("code", ["x"])], cookies := [("id", "abc")] }
        "access_token=t" 200 [("login", "octocat")]
        [{ id := 5, fields := [("github", "keep")] }] =
      .ok (textResp "The Discord ID is not numeric." 400,
        [{ id := 5, fields := [("github", "keep")] }]) :=
  callback_nonnumeric_cookie
    { github_client := some "c", github_secret := some "s" }
    { url := "u", args := [("code", ["x"])], cookies := [("id", "abc")] }
    "access_token=t" 200 [("login", "octocat")]
    [{ id := 5, fields := [("github", "keep")] }] "c" "s" "abc" rfl rfl rfl
    (by decide)

/-- Claim C3 (amended): when the decoded token-exchange body contains an
`error` key and also an `error_description` key, the callback returns 400
with the first `error_description` value verbatim and the collection
unchanged; when `error_description` is absent the lookup
`params["error_description"][0]` raises an uncaught KeyError instead (see
the counterexample theorem). -/
theorem exchange_error_surfaced (env : Env) (request : Request)
    (exchangeBody : String) (profileStatus : Nat)
    (profileJson : List (String × String)) (db : DB)
    (client secret cid code desc : String) (codes : List String)
    (hc : env.github_client = some client) (hs : env.github_secret = some secret)
    (hid : cookiesGet request.cookies "id" = some cid)
    (hnum : pyIsNumeric cid = true)
    (hcode : argsGet request.args "code" = some (code :: codes))
    (herr : qsHasKey (parse_qs exchangeBody) "error" = true)
    (hdesc : qsFirst (parse_qs exchangeBody) "error_description" = some desc) :
    github_callback env request exchangeBody profileStatus profileJson db =
      .ok (textResp desc 400, db) := by
  obtain ⟨gc, gs⟩ := env
  simp only at hc hs
  subst hc
  subst hs
  simp [github_callback, hid, hnum, hcode, herr, hdesc]

/-- Counterexample to C3 as stated: the decoded body `error=access_denied`
contains an `error` key, yet the callback produces no HTTP response at all:
the missing `error_description` key raises an uncaught KeyError. -/
theorem exchange_error_missing_description :
    github_callback { github_client := some "c", github_secret := some "s" }
        { url := "u", args := [("code", ["x"])], cookies := [("id", "123")] }
        "error=access_denied" 200 [("login", "octocat")] [] =
      .error "KeyError: error_description" ∧
    (github_callback { github_client := some "c", github_secret := some "s" }
        { url := "u", args := [("code", ["x"])], cookies := [("id", "123")] }
        "error=access_denied" 200 [("login", "octocat")] []).toOption = none :=
  ⟨rfl, rfl⟩

/-- Witness for C3 at the body from the spec, decoding `+` to a space. -/
theorem exchange_error_surfaced_witness :
    github_callback { github_client := some "c", github_secret := some "s" }
        { url := "u", args := [("code", ["x"])], cookies := [("id", "123")] }
        "error=access_denied&error_description=User+denied+access" 200
        [("login", "octocat")] [] =
      .ok (textResp "User denied access" 400, []) :=
  exchange_error_surfaced { github_client := some "c", github_secret := some "s" }
    { url := "u", args := [("code", ["x"])], cookies := [("id", "123")] }
    "error=access_denied&error_description=User+denied+access" 200
    [("login", "octocat")] [] "c" "s" "123" "x" "User denied access" []
    rfl rfl rfl (by decide) rfl (by decide) (by decide)

/-- Claim C5: when the token exchange succeeds (no `error` key, an
`access_token` present) but the profile response has a status other than
200, the callback forwards exactly the provider status with the fixed
error body, and the collection is returned unchanged. -/
theorem profile_fetch_failure_forwards_status (env : Env) (request : Request)
    (exchangeBody : String) (profileStatus : Nat)
    (profileJson : List (String × String)) (db : DB)
    (client secret cid code token : String) (codes : List String)
    (hc : env.github_client = some client) (hs : env.github_secret = some secret)
    (hid : cookiesGet request.cookies "id" = some cid)
    (hnum : pyIsNumeric cid = true)
    (hcode : argsGet request.args "code" = some (code :: codes))
    (herr : qsHasKey (parse_qs exchangeBody) "error" = false)
    (htok : qsFirst (parse_qs exchangeBody) "access_token" = some token)
    (hstatus : profileStatus ≠ 200) :
    github_callback env request exchangeBody profileStatus profileJson db =
      .ok (textResp "An error has ocurred while fetching your data."
        profileStatus, db) := by
  obtain ⟨gc, gs⟩ := env
  simp only at hc hs
  subst hc
  subst hs
  have hb : (profileStatus != 200) = true := bne_iff_ne.mpr hstatus
  simp [github_callback, hid, hnum, hcode, herr, htok, hb]

/-- Witness for C5 with a 404 profile response. -/
theorem profile_fetch_failure_forwards_status_witness :
    github_callback { github_client := some "c", github_secret := some "s" }
        { url := "u", args := [("code", ["x"])], cookies := [("id", "123")] }
        "access_token=t" 404 [("login", "octocat")] [] =
      .ok (textResp "An error has ocurred while fetching your data." 404, []) :=
  profile_fetch_failure_forwards_status
    { github_client := some "c", github_secret := some "s" }
    { url := "u", args := [("code", ["x"])], cookies := [("id", "123")] }
    "access_token=t" 404 [("login", "octocat")] [] "c" "s" "123" "x" "t" []
    rfl rfl rfl (by decide) rfl (by decide) (by decide) (by decide)

/-- Claim C6 (amended): for every cookie string accepted by the `isnumeric`
guard, the conversion `int(cookie)` is defined exactly when every character
is a decimal digit; a guard-accepted string containing a numeric but
non-decimal character makes the conversion fail (an uncaught ValueError),
so the guard is strictly weaker than being a valid non-negative integer
string. -/
theorem numeric_guard_int_conversion (s : String) (h : pyIsNumeric s = true) :
    (s.data.all charIsDecimalPy = true → ∃ n : Int, pyIntOfNumeric s = some n) ∧
    (s.data.all charIsDecimalPy = false → pyIntOfNumeric s = none) := by
  have hne : s.data.isEmpty = false := by
    have := (Bool.and_eq_true _ _).mp h
    simpa using this.1
  refine ⟨fun hd => ?_, fun hd => ?_⟩
  · exact ⟨Int.ofNat (s.data.foldl (fun a c => 10 * a + pyDigitVal c) 0),
      by simp [pyIntOfNumeric, hne, hd]⟩
  · simp [pyIntOfNumeric, hd]

/-- Witness for C6 at the decimal cookie string `123`. -/
theorem numeric_guard_int_conversion_witness :
    ∃ n : Int, pyIntOfNumeric "123" = some n :=
  (numeric_guard_int_conversion "123" (by decide)).1 (by decide)

/-- Counterexample to C6 as stated: the vulgar fraction one-half passes the
`isnumeric` guard, but it is not a valid non-negative integer string:
`int` on it is undefined, and a callback carrying it as `id` cookie dies
with an uncaught ValueError after the guard accepted it. -/
theorem numeric_guard_counterexample :
    pyIsNumeric "½" = true ∧ pyIntOfNumeric "½" = none ∧
    github_callback { github_client := some "c", github_secret := some "s" }
        { url := "u", args := [("code", ["x"])], cookies := [("id", "½")] }
        "access_token=t" 200 [("login", "octocat")] [] =
      .error "ValueError: invalid literal for int with base 10" :=
  ⟨by decide, by decide, rfl⟩

/-- Claim C10: the branches of the callback are exhaustive only under
unstated assumptions on the provider: an exchange body with neither
`error` nor `access_token`, an exchange body with `error` but no
`error_description`, and a 200 profile response without a `login` key each
raise an uncaught missing-key exception instead of producing a response
from the error taxonomy. -/
theorem callback_uncaught_exceptions :
    github_callback { github_client := some "c", github_secret := some "s" }
        { url := "u", args := [("code", ["x"])], cookies := [("id", "123")] }
        "foo=bar" 200 [("login", "octocat")] [] =
      .error "KeyError: access_token" ∧
    github_callback { github_client := some "c", github_secret := some "s" }
        { url := "u", args := [("code", ["y"])], cookies := [("id", "123")] }
        "error=access_denied" 200 [("login", "octocat")] [] =
      .error "KeyError: error_description" ∧
    github_callback { github_client := some "c", github_secret := some "s" }
        { url := "u", args := [("code", ["z"])], cookies := [("id", "123")] }
        "access_token=t" 200 [("name", "octocat")] [] =
      .error "KeyError: login" :=
  ⟨rfl, rfl, rfl⟩

/-- Claim C1: every successful callback (status 200) writes by upsert: the
new collection is `upsertUser` of the old one at the cookie ID and fetched
login; when no record with that ID exists a single record
`{_id: n, github: login}` is appended, when one exists its `github` field
is overwritten with no new record created, and the at-most-one-record-per-ID
invariant is preserved (so any sequence of successful callbacks keeps it). -/
theorem callback_success_upserts (env : Env) (request : Request)
    (exchangeBody : String) (profileStatus : Nat)
    (profileJson : List (String × String)) (db : DB) (resp : Response) (db2 : DB)
    (hok : github_callback env request exchangeBody profileStatus profileJson db =
      .ok (resp, db2))
    (h200 : resp.status = 200) :
    ∃ cid n login,
      cookiesGet request.cookies "id" = some cid ∧
      pyIntOfNumeric cid = some n ∧
      getField profileJson "login" = some login ∧
      db2 = upsertUser db n login ∧
      (find_one db n = none →
        db2 = db ++ [{ id := n, fields := [("github", login)] }]) ∧
      (∀ d, find_one db n = some d →
        db2.length = db.length ∧
        find_one db2 n = some { d with fields := setField d.fields "github" login }) ∧
      (atMostOnePerId db → atMostOnePerId db2) := by
  obtain ⟨gc, gs⟩ := env
  unfold github_callback at hok
  cases gc with
  | none =>
    exfalso
    simp only [Except.ok.injEq, Prod.mk.injEq] at hok
    rw [← hok.1] at h200
    simp [textResp] at h200
  | some client =>
  cases gs with
  | none =>
    exfalso
    simp only [Except.ok.injEq, Prod.mk.injEq] at hok
    rw [← hok.1] at h200
    simp [textResp] at h200
  | some secret =>
  simp only at hok
  cases hid : cookiesGet request.cookies "id" with
  | none =>
    rw [hid] at hok
    exfalso
    simp only [Except.ok.injEq, Prod.mk.injEq] at hok
    rw [← hok.1] at h200
    simp [textResp] at h200
  | some cid =>
  rw [hid] at hok
  simp only at hok
  cases hnum : pyIsNumeric cid with
  | false =>
    rw [hnum] at hok
    exfalso
    simp only [Bool.not_false, if_true, Except.ok.injEq, Prod.mk.injEq] at hok
    rw [← hok.1] at h200
    simp [textResp] at h200
  | true =>
  rw [hnum] at hok
  simp only [Bool.not_true, Bool.false_eq_true, if_false] at hok
  cases hcode : argsGet request.args "code" with
  | none =>
    rw [hcode] at hok
    exfalso
    simp only [Except.ok.injEq, Prod.mk.injEq] at hok
    rw [← hok.1] at h200
    simp [textResp] at h200
  | some codes =>
  rw [hcode] at hok
  simp only at hok
  cases hhead : codes.head? with
  | none => rw [hhead] at hok; simp only at hok; exact Except.noConfusion hok
  | some code =>
  rw [hhead] at hok
  simp only at hok
  cases herr : qsHasKey (parse_qs exchangeBody) "error" with
  | true =>
    rw [herr] at hok
    simp only [if_true] at hok
    cases hdesc : qsFirst (parse_qs exchangeBody) "error_description" with
    | none => rw [hdesc] at hok; simp only at hok; exact Except.noConfusion hok
    | some desc =>
      rw [hdesc] at hok
      exfalso
      simp only [Except.ok.injEq, Prod.mk.injEq] at hok
      rw [← hok.1] at h200
      simp [textResp] at h200
  | false =>
  rw [herr] at hok
  simp only [Bool.false_eq_true, if_false] at hok
  cases htok : qsFirst (parse_qs exchangeBody) "access_token" with
  | none => rw [htok] at hok; simp only at hok; exact Except.noConfusion hok
  | some token =>
  rw [htok] at hok
  simp only at hok
  cases hstat : profileStatus != 200 with
  | true =>
    rw [hstat] at hok
    exfalso
    simp only [if_true, Except.ok.injEq, Prod.mk.injEq] at hok
    rw [← hok.1] at h200
    simp only [textResp] at h200
    rw [h200] at hstat
    simp at hstat
  | false =>
  rw [hstat] at hok
  simp only [Bool.false_eq_true, if_false] at hok
  cases hn : pyIntOfNumeric cid with
  | none => rw [hn] at hok; simp only at hok; exact Except.noConfusion hok
  | some n =>
  rw [hn] at hok
  simp only at hok
  cases hlogin : getField profileJson "login" with
  | none => rw [hlogin] at hok; simp only at hok; exact Except.noConfusion hok
  | some login =>
  rw [hlogin] at hok
  simp only [Except.ok.injEq, Prod.mk.injEq] at hok
  obtain ⟨hresp, hdb⟩ := hok
  refine ⟨cid, n, login, rfl, hn, rfl, hdb.symm, fun hnone => ?_,
    fun d hd => ⟨?_, ?_⟩, fun hinv => ?_⟩
  · rw [← hdb, upsertUser_insert db n login hnone]
  · rw [← hdb, upsertUser_update db n login d hd]
    exact update_one_length db n login
  · rw [← hdb, upsertUser_update db n login d hd]
    exact find_one_update_one db n login d hd
  · rw [← hdb]
    exact upsertUser_atMostOne db n login hinv

/-- Witness for C1: a successful callback for ID 123 and login octocat on
an empty collection inserts the single record. -/
theorem callback_success_upserts_witness :
    ∃ cid n login,
      cookiesGet [("id", "123")] "id" = some cid ∧
      pyIntOfNumeric cid = some n ∧
      getField [("login", "octocat")] "login" = some login ∧
      ([{ id := 123, fields := [("github", "octocat")] }] : DB) =
        upsertUser [] n login ∧
      (find_one [] n = none →
        ([{ id := 123, fields := [("github", "octocat")] }] : DB) =
          [] ++ [({ id := n, fields := [("github", login)] } : Doc)]) ∧
      (∀ d, find_one [] n = some d →
        ([{ id := 123, fields := [("github", "octocat")] }] : DB).length =
          ([] : DB).length ∧
        find_one [{ id := 123, fields := [("github", "octocat")] }] n =
          some { d with fields := setField d.fields "github" login }) ∧
      (atMostOnePerId [] →
        atMostOnePerId [{ id := 123, fields := [("github", "octocat")] }]) :=
  callback_success_upserts { github_client := some "c", github_secret := some "s" }
    { url := "u", args := [("code", ["x"])], cookies := [("id", "123")] }
    "access_token=t" 200 [("login", "octocat")] []
    (textResp "Done! The GitHub account octocat is now linked with Discord." 200)
    [{ id := 123, fields := [("github", "octocat")] }] rfl rfl

/-- Claim C9: the update path of the callback rewrites only the `github`
field of the first record stored under the ID: the updated record keeps
every other field unchanged, the collection keeps its length, and the
records stored under every other ID are untouched. -/
theorem update_path_frame (db : DB) (n : Int) (login : String) (d : Doc)
    (h : find_one db n = some d) :
    find_one (update_one db n login) n =
      some { d with fields := setField d.fields "github" login } ∧
    getField (setField d.fields "github" login) "github" = some login ∧
    (∀ k, k ≠ "github" →
      getField (setField d.fields "github" login) k = getField d.fields k) ∧
    (update_one db n login).length = db.length ∧
    (∀ m, m ≠ n →
      (update_one db n login).filter (fun x => x.id == m) =
        db.filter (fun x => x.id == m)) :=
  ⟨find_one_update_one db n login d h,
   getField_setField_self d.fields "github" login,
   fun k hk => getField_setField_other d.fields "github" login k hk,
   update_one_length db n login,
   fun m hm => filter_update_one_other db n login m hm⟩

/-- Witness for C9 on a record with an extra field. -/
theorem update_path_frame_witness :
    find_one (update_one [sampleDoc] 5 "new") 5 =
      some { sampleDoc with fields := setField sampleDoc.fields "github" "new" } ∧
    getField (setField sampleDoc.fields "github" "new") "github" = some "new" :=
  ⟨(update_path_frame [sampleDoc] 5 "new" sampleDoc rfl).1,
   (update_path_frame [sampleDoc] 5 "new" sampleDoc rfl).2.1⟩

end Axis
